import Mathlib

/-!
Verification of the CareerInn Flask application (`app.py`): a shallow
embedding of its data model (SQLAlchemy tables as Lean lists of rows),
its session state (the Flask `session` dict), and its route handlers
(`signup`, `login`, `subscribe`, `chatbot` GET/POST, `finish`,
`end_chatbot`, `mentorship`, `mock_interviews`, `global_match`,
`mock_interview_ai`), together with a small-step operational model of
all database-writing operations, over which the entitlement and
AI-quota invariants are proved.

Modelling conventions:
- autoincrement `id` primary-key columns are omitted from row types
  where no code reads them; the `unique=True` constraints on
  `ai_usage.user_id` and `subscriptions.user_id` appear as explicit
  at-most-one-row hypotheses, which are also proved invariant over all
  reachable states;
- `werkzeug.generate_password_hash` / `check_password_hash` and the
  Groq chat-completion client are external collaborators, modelled as
  function parameters (`hash`, `check`, `GroqClient`);
- a Python value that can be absent (`session.get(...)`, `.first()`)
  is an `Option`; an external call that can raise is an `Except`.
-/

namespace App

/-- A chat message, as stored in `session["ai_history"]` /
`session["mock_ai_history"]`: a dict with keys `role` and `content`. -/
structure Msg where
  role : String
  content : String
deriving Repr, DecidableEq

/-- `class User(Base)`: columns `id`, `name`, `email` (unique), `password`
(the stored werkzeug hash). -/
structure User where
  id : Nat
  name : String
  email : String
  password : String
deriving Repr, DecidableEq

/-- `class AiUsage(Base)`: columns `user_id` (unique) and `ai_used`
(Integer, default 0).  The autoincrement `id` column is omitted. -/
structure AiUsageRow where
  user_id : Nat
  ai_used : Nat
deriving Repr, DecidableEq

/-- `class Subscription(Base)`: columns `user_id` (unique) and `active`
(Boolean, default False).  The autoincrement `id` column is omitted. -/
structure SubscriptionRow where
  user_id : Nat
  active : Bool
deriving Repr, DecidableEq

/-- `class Mentor(Base)`: columns `name`, `experience`, `speciality`. -/
structure Mentor where
  name : String
  experience : String
  speciality : String
deriving Repr, DecidableEq

/-- `class UserProfile(Base)`: the per-user dashboard profile row. -/
structure UserProfileRow where
  user_id : Nat
  skills_text : String
  target_roles : String
  self_rating : Int
  resume_link : String
  notes : String
deriving Repr, DecidableEq

/-- `class MockInterview(Base)`: an uploaded mock-interview resource. -/
structure MockInterviewRow where
  title : String
  notes : String
  link : String
  uploader_id : Option Nat
deriving Repr, DecidableEq

/-- `class PrevPaper(Base)`: an uploaded or linked question paper. -/
structure PrevPaperRow where
  title : String
  year : String
  link : String
  uploader_id : Option Nat
  is_upload : Bool
deriving Repr, DecidableEq

/-- The tables that no entitlement/quota logic reads: `user_profiles`,
`mock_interviews`, `prev_papers` (written by `dashboard`,
`mock_interviews` POST and `prev_papers` POST respectively).  The
content tables `colleges`, `jobs` are read-only after seeding and are
not modelled. -/
structure OtherTables where
  profiles : List UserProfileRow
  mock_interviews : List MockInterviewRow
  prev_papers : List PrevPaperRow
deriving Repr, DecidableEq

/-- The relational store: one list of rows per modelled table. -/
structure DB where
  users : List User
  subs : List SubscriptionRow
  ai_usage : List AiUsageRow
  mentors : List Mentor
  other : OtherTables
deriving Repr, DecidableEq

/-- The Flask `session` dict: keys `user_id`, `user`, `ai_history`,
`mock_ai_history`, `ai_used`, `first_time_login`. -/
structure Sess where
  user_id : Option Nat
  user : Option String
  ai_history : List Msg
  mock_ai_history : List Msg
  ai_used : Bool
  first_time_login : Option Bool
deriving Repr, DecidableEq

/-- The external Groq chat-completion call: takes the outbound message
list, returns the reply text or raises (`Except.error e`, converted by
the handlers into the literal string `"AI error: " ++ e`). -/
def GroqClient : Type := List Msg → Except String String

/-- `db.query(AiUsage).filter_by(user_id=user_id).first()`. -/
def findUsage (uid : Nat) (l : List AiUsageRow) : Option AiUsageRow :=
  l.find? (fun r => r.user_id == uid)

/-- `db.query(Subscription).filter_by(user_id=user_id).first()`. -/
def findSub (uid : Nat) (l : List SubscriptionRow) : Option SubscriptionRow :=
  l.find? (fun r => r.user_id == uid)

/-- Update the first row matched by `p` with `f`, leaving everything
else unchanged: the effect of mutating the object returned by
`.filter_by(...).first()` and committing. -/
def updFirst (p : α → Bool) (f : α → α) : List α → List α
  | [] => []
  | x :: xs => if p x then f x :: xs else x :: updFirst p f xs

/-- `user_is_subscribed(user_id)` (app.py lines 330-336): `False` for a
missing user id, else `bool(sub and sub.active)` on the first matching
`Subscription` row. -/
def user_is_subscribed (db : DB) (user_id : Option Nat) : Bool :=
  match user_id with
  | none => false
  | some uid =>
    match findSub uid db.subs with
    | none => false
    | some sub => sub.active

/-- The chatbot route's lock test (app.py line 1255):
`locked = bool(usage and usage.ai_used == 1)`. -/
def chatbotLocked (db : DB) (uid : Nat) : Bool :=
  match findUsage uid db.ai_usage with
  | none => false
  | some usage => usage.ai_used == 1

/-- The spec's `hasFreeQuotaRemaining(userId)` predicate, read off the
chatbot's lock check: the user still has the free chat iff the lock
test is false. -/
def hasFreeQuotaRemaining (db : DB) (uid : Nat) : Bool :=
  !(chatbotLocked db uid)

/-- The home route's usage test (app.py lines 348-352):
`usage and usage.ai_used >= 1`. -/
def homeAiUsed (db : DB) (uid : Nat) : Bool :=
  match findUsage uid db.ai_usage with
  | none => false
  | some usage => decide (1 ≤ usage.ai_used)

/-- The effect on the `ai_usage` table of `GET /finish` (lines
1296-1302) and `POST /chatbot/end` (lines 1313-1319), i.e. the spec's
`consumeFreeQuota`: create the `AiUsage` row with `ai_used=1` if
absent, else set the existing (first matching) row's `ai_used` to 1. -/
def consumeList (uid : Nat) (l : List AiUsageRow) : List AiUsageRow :=
  match findUsage uid l with
  | none => l ++ [⟨uid, 1⟩]
  | some _ => updFirst (fun r => r.user_id == uid) (fun r => { r with ai_used := 1 }) l

/-- `consumeFreeQuota` as a database transition (no other table is
touched by `/finish` or `/chatbot/end`). -/
def consumeDb (uid : Nat) (db : DB) : DB :=
  { db with ai_usage := consumeList uid db.ai_usage }

/-- The effect on the `subscriptions` table of `POST /subscribe`
(lines 604-610), i.e. the spec's `activateSubscription`: create the
`Subscription` row with `active=True` if absent, else set the existing
(first matching) row's `active` to True. -/
def subscribeList (uid : Nat) (l : List SubscriptionRow) : List SubscriptionRow :=
  match findSub uid l with
  | none => l ++ [⟨uid, true⟩]
  | some _ => updFirst (fun r => r.user_id == uid) (fun r => { r with active := true }) l

/-- `activateSubscription` as a database transition (no other table is
touched by `POST /subscribe`). -/
def subscribeDb (uid : Nat) (db : DB) : DB :=
  { db with subs := subscribeList uid db.subs }

/-- Email normalization used by signup and login:
`request.form.get("email", "").strip().lower()`. -/
def normEmail (email : String) : String :=
  email.trim.toLower

/-- The rendered outcome of `POST /signup`. -/
inductive SignupView where
  /-- "All fields are required." rendered above the form. -/
  | validationError
  /-- "An account with this email already exists. Please login." -/
  | duplicateError
  /-- `redirect("/login")` after inserting the new user. -/
  | redirectLogin
deriving Repr, DecidableEq

/-- `POST /signup` (app.py lines 524-543).  `hash` is
`generate_password_hash(·, method="pbkdf2:sha256", salt_length=16)`;
the new row's autoincrement id is modelled as one past the current row
count. -/
def signup (hash : String → String) (db : DB) (name email password : String) :
    DB × SignupView :=
  let n := name.trim
  let e := normEmail email
  let p := password.trim
  if n = "" ∨ e = "" ∨ p = "" then
    (db, .validationError)
  else
    match db.users.find? (fun u => u.email == e) with
    | some _ => (db, .duplicateError)
    | none =>
      ({ db with users := db.users ++ [⟨db.users.length + 1, n, e, hash p⟩] },
       .redirectLogin)

/-- The rendered outcome of `POST /login`. -/
inductive LoginView where
  /-- `redirect("/dashboard")`. -/
  | redirectDashboard
  /-- An error fragment rendered above the login form. -/
  | loginError (msg : String)
deriving Repr, DecidableEq

/-- The generic credential-failure message, rendered identically for an
unknown email and for a failed hash verification (app.py line 588). -/
def invalidCredentialsMsg : String :=
  "Invalid email or password."

/-- `POST /login` (app.py lines 566-589).  `check` is
`check_password_hash stored password`; `none` models the call raising,
in which case the handler falls back to plain string equality (the
`except` branch at line 579). -/
def login (check : String → String → Option Bool) (db : DB) (sess : Sess)
    (email password : String) : Sess × LoginView :=
  let e := normEmail email
  let p := password.trim
  match db.users.find? (fun u => u.email == e) with
  | none => (sess, .loginError invalidCredentialsMsg)
  | some u =>
    let authenticated :=
      match check u.password p with
      | some b => b
      | none => u.password == p
    if authenticated then
      ({ sess with
          user := some u.name
          user_id := some u.id
          ai_history := []
          first_time_login :=
            match sess.first_time_login with
            | none => some true
            | some b => some b },
       .redirectDashboard)
    else
      (sess, .loginError invalidCredentialsMsg)

/-- The AI system prompt sent as the first message of every metered
chatbot call (app.py lines 204-211, truncated in the source itself). -/
def AI_SYSTEM_PROMPT : String :=
  "\nYou are CareerInn's AI career guide for hospitality and hotel management in Hyderabad.\n\nYour job:\n- Talk like a friendly senior / mentor.\n- Ask the student structured questions step by step, not all at once.\n... (kept as before)\n"

/-- The fixed lock-notice assistant message appended by `POST /chatbot`
when the account is locked (app.py line 1266). -/
def lockNotice : Msg :=
  ⟨"assistant",
   "⚠ Your free AI career chat session has ended.\nPlease check the Student Pass (₹299/year) on the home page and talk to mentors for more guidance."⟩

/-- The fixed reply used when `GROQ_API_KEY` is unset (app.py
line 1277). -/
def notConfiguredReply : String :=
  "AI is not configured yet. Please ask the admin to set GROQ_API_KEY in the server environment."

/-- The rendered outcome of a `/chatbot` request. -/
inductive ChatView where
  /-- `redirect("/login")` for an anonymous session. -/
  | redirectLogin
  /-- `redirect("/chatbot")` after the `?reset=1` branch. -/
  | redirectChatbot
  /-- The chat page, with the displayed history and the lock flag. -/
  | page (history : List Msg) (locked : Bool)
deriving Repr, DecidableEq

/-- `POST /chatbot` (app.py lines 1248-1288), the spec's `submitTurn`.
The returned `Bool` records whether the external completion API was
called (`groq_client.chat.completions.create`, line 1280). -/
def chatbotPost (groq : Option GroqClient) (db : DB) (sess : Sess) (msg : String) :
    DB × Sess × Bool × ChatView :=
  match sess.user_id with
  | none => (db, sess, false, .redirectLogin)
  | some uid =>
    let locked := chatbotLocked db uid
    if locked then
      let history := sess.ai_history ++ [lockNotice]
      (db, { sess with ai_history := history }, false, .page history true)
    else
      let m := msg.trim
      if m = "" then
        (db, sess, false, .page sess.ai_history locked)
      else
        let history := sess.ai_history ++ [⟨"user", m⟩]
        let messages := ⟨"system", AI_SYSTEM_PROMPT⟩ :: history
        match groq with
        | none =>
          let history := history ++ [⟨"assistant", notConfiguredReply⟩]
          (db, { sess with ai_history := history }, false, .page history locked)
        | some client =>
          let reply :=
            match client messages with
            | .ok r => r
            | .error e => "AI error: " ++ e
          let history := history ++ [⟨"assistant", reply⟩]
          (db, { sess with ai_history := history }, true, .page history locked)

/-- `GET /chatbot` (app.py lines 1248-1263 and 1286-1288): `reset` is
whether the query string carries `reset=1`. -/
def chatbotGet (db : DB) (sess : Sess) (reset : Bool) :
    DB × Sess × ChatView :=
  match sess.user_id with
  | none => (db, sess, .redirectLogin)
  | some uid =>
    let locked := chatbotLocked db uid
    if reset then
      (db, { sess with ai_history := [] }, .redirectChatbot)
    else
      (db, sess, .page sess.ai_history locked)

/-- The rendered outcome of `/finish` and `/chatbot/end`. -/
inductive QuotaView where
  | redirectLogin
  | redirectChatbot
deriving Repr, DecidableEq

/-- `GET /finish` (app.py lines 1290-1304): consumes the quota and
redirects to `/chatbot`, leaving the session untouched. -/
def finish (db : DB) (sess : Sess) : DB × Sess × QuotaView :=
  match sess.user_id with
  | none => (db, sess, .redirectLogin)
  | some uid => (consumeDb uid db, sess, .redirectChatbot)

/-- `POST /chatbot/end` (app.py lines 1306-1324), the spec's
`endAndLock`: consumes the quota, clears the session history, sets
`session["ai_used"]`, redirects to `/chatbot`. -/
def end_chatbot (db : DB) (sess : Sess) : DB × Sess × QuotaView :=
  match sess.user_id with
  | none => (db, sess, .redirectLogin)
  | some uid =>
    (consumeDb uid db,
     { sess with ai_history := [], ai_used := true },
     .redirectChatbot)

/-- The rendered outcome of `GET /mentorship`. -/
inductive MentorshipView where
  /-- The fixed "Mentorship is available to subscribed users only"
  upsell page; carries no mentor data. -/
  | locked
  /-- The mentor directory, built from `db.query(Mentor).all()`. -/
  | mentorList (mentors : List Mentor)
deriving Repr, DecidableEq

/-- `GET /mentorship` (app.py lines 1027-1051). -/
def mentorship (db : DB) (sess : Sess) : MentorshipView :=
  if user_is_subscribed db sess.user_id then
    .mentorList db.mentors
  else
    .locked

/-- The rendered outcome of `GET /mock-interviews`. -/
inductive MockView where
  /-- The fixed subscribe-to-unlock page; carries no interview data. -/
  | locked
  /-- The resource list (display order, by id descending, is
  presentation and not modelled). -/
  | itemList (items : List MockInterviewRow)
deriving Repr, DecidableEq

/-- `GET /mock-interviews` (app.py lines 1076-1118), read path only. -/
def mock_interviews (db : DB) (sess : Sess) : MockView :=
  if user_is_subscribed db sess.user_id then
    .itemList db.other.mock_interviews
  else
    .locked

/-- The rendered outcome of `GET /global-match` (static content when
unlocked). -/
inductive GlobalMatchView where
  | locked
  | content
deriving Repr, DecidableEq

/-- `GET /global-match` (app.py lines 1226-1245). -/
def global_match (db : DB) (sess : Sess) : GlobalMatchView :=
  if user_is_subscribed db sess.user_id then
    .content
  else
    .locked

/-- The rendered outcome of `/mock-interviews/ai`. -/
inductive MockAiView where
  /-- "AI Mock Interview requires subscription." -/
  | needSubscription
  /-- The mock-interview chat page with the displayed history. -/
  | page (history : List Msg)
deriving Repr, DecidableEq

/-- The system prompt of the AI mock interviewer (app.py line 1131). -/
def mockSystemPrompt : String :=
  "You are an AI mock interviewer for hospitality roles. Ask scenario questions, give feedback on answers, be concise and constructive."

/-- The mock-interview fixed reply when `GROQ_API_KEY` is unset
(app.py line 1134). -/
def mockNotConfiguredReply : String :=
  "AI not configured. Please set GROQ_API_KEY in environment."

/-- `POST /mock-interviews/ai` (app.py lines 1120-1161).  The returned
`Bool` records whether the external completion API was called
(line 1137). -/
def mock_interview_ai (groq : Option GroqClient) (db : DB) (sess : Sess) (msg : String) :
    DB × Sess × Bool × MockAiView :=
  if user_is_subscribed db sess.user_id then
    let m := msg.trim
    if m = "" then
      (db, sess, false, .page sess.mock_ai_history)
    else
      let history := sess.mock_ai_history ++ [⟨"user", m⟩]
      let messages := ⟨"system", mockSystemPrompt⟩ :: history
      match groq with
      | none =>
        let history := history ++ [⟨"assistant", mockNotConfiguredReply⟩]
        (db, { sess with mock_ai_history := history }, false, .page history)
      | some client =>
        let reply :=
          match client messages with
          | .ok r => r
          | .error e => "AI error: " ++ e
        let history := history ++ [⟨"assistant", reply⟩]
        (db, { sess with mock_ai_history := history }, true, .page history)
  else
    (db, sess, false, .needSubscription)

/-- One system operation, covering every route of app.py that writes
the database.  Routes that write only the session (`home`, `login`,
`logout`, `chatbot`) or nothing are included as identities or omitted;
`dashboard`, `mock_interviews` POST and `prev_papers` POST write only
the `user_profiles` / `mock_interviews` / `prev_papers` tables, which
`otherWrite` over-approximates by an arbitrary update of those tables. -/
inductive Op where
  /-- `POST /signup`. -/
  | signupOp (hash : String → String) (name email password : String)
  /-- `POST /login` (no database write). -/
  | loginOp (check : String → String → Option Bool) (email password : String)
  /-- `POST /subscribe` for a logged-in user. -/
  | subscribeOp (uid : Nat)
  /-- `POST /chatbot` (no database write). -/
  | chatbotOp (groq : Option GroqClient) (sess : Sess) (msg : String)
  /-- `GET /finish` or `POST /chatbot/end` for a logged-in user. -/
  | consumeOp (uid : Nat)
  /-- Any write to `user_profiles`, `mock_interviews` or `prev_papers`. -/
  | otherWrite (f : OtherTables → OtherTables)

/-- The database effect of one operation. -/
def applyOp : Op → DB → DB
  | .signupOp hash n e p, db => (signup hash db n e p).1
  | .loginOp _ _ _, db => db
  | .subscribeOp uid, db => subscribeDb uid db
  | .chatbotOp groq sess msg, db => (chatbotPost groq db sess msg).1
  | .consumeOp uid, db => consumeDb uid db
  | .otherWrite f, db => { db with other := f db.other }

/-- Run a list of operations left to right. -/
def runOps (ops : List Op) (db : DB) : DB :=
  ops.foldl (fun d o => applyOp o d) db

/-- The database as `init_db()` leaves it: `users`, `subscriptions` and
`ai_usage` are empty (seeding touches only the content tables). -/
def initDB (mentors : List Mentor) (other : OtherTables) : DB :=
  ⟨[], [], [], mentors, other⟩

/-- Whether an operation is a `consumeFreeQuota` for the given user. -/
def isConsumeFor (uid : Nat) : Op → Bool
  | .consumeOp u => u == uid
  | _ => false

/-! ### Generic lemmas about `updFirst` -/

theorem find?_updFirst_self {p : α → Bool} {f : α → α}
    (hf : ∀ x, p x = true → p (f x) = true) {l : List α} {r : α}
    (h : l.find? p = some r) :
    (updFirst p f l).find? p = some (f r) := by
  induction l with
  | nil => simp at h
  | cons x xs ih =>
    by_cases hx : p x = true
    · rw [List.find?_cons_of_pos _ hx] at h
      cases h
      simp [updFirst, hx, List.find?_cons_of_pos _ (hf _ hx)]
    · rw [List.find?_cons_of_neg _ hx] at h
      simp only [updFirst, if_neg hx]
      rw [List.find?_cons_of_neg _ hx]
      exact ih h

theorem find?_updFirst_other {p q : α → Bool} {f : α → α}
    (hq : ∀ x, q (f x) = q x) (hpq : ∀ x, q x = true → p x = false)
    (l : List α) : (updFirst p f l).find? q = l.find? q := by
  induction l with
  | nil => rfl
  | cons x xs ih =>
    by_cases hx : p x = true
    · have hqx : ¬ q x = true := fun hc => by simp [hpq x hc] at hx
      have hqfx : ¬ q (f x) = true := by rw [hq]; exact hqx
      simp only [updFirst, if_pos hx]
      rw [List.find?_cons_of_neg _ hqfx, List.find?_cons_of_neg _ hqx]
    · simp only [updFirst, if_neg hx]
      by_cases hqx : q x = true
      · rw [List.find?_cons_of_pos _ hqx, List.find?_cons_of_pos _ hqx]
      · rw [List.find?_cons_of_neg _ hqx, List.find?_cons_of_neg _ hqx]
        exact ih

theorem updFirst_append_of_none {p : α → Bool} {f : α → α} {l₁ : List α}
    (h : l₁.find? p = none) (l₂ : List α) :
    updFirst p f (l₁ ++ l₂) = l₁ ++ updFirst p f l₂ := by
  induction l₁ with
  | nil => rfl
  | cons x xs ih =>
    have hx : ¬ p x = true := by
      intro hc
      simp [List.find?_cons_of_pos _ hc] at h
    rw [List.find?_cons_of_neg _ hx] at h
    simp only [List.cons_append, updFirst, if_neg hx]
    rw [show xs.append l₂ = xs ++ l₂ from rfl, ih h]

theorem updFirst_idem {p : α → Bool} {f : α → α}
    (hf : ∀ x, p x = true → p (f x) = true)
    (hff : ∀ x, p x = true → f (f x) = f x) (l : List α) :
    updFirst p f (updFirst p f l) = updFirst p f l := by
  induction l with
  | nil => rfl
  | cons x xs ih =>
    by_cases hx : p x = true
    · simp only [updFirst, if_pos hx, if_pos (hf _ hx), hff _ hx]
    · simp only [updFirst, if_neg hx, ih]

theorem countP_updFirst {p q : α → Bool} {f : α → α}
    (hq : ∀ x, q (f x) = q x) (l : List α) :
    (updFirst p f l).countP q = l.countP q := by
  induction l with
  | nil => rfl
  | cons x xs ih =>
    by_cases hx : p x = true
    · simp [updFirst, if_pos hx, List.countP_cons, hq]
    · simp [updFirst, if_neg hx, List.countP_cons, ih]

theorem mem_updFirst {p : α → Bool} {f : α → α} {l : List α} {r : α}
    (h : r ∈ updFirst p f l) :
    r ∈ l ∨ ∃ x, x ∈ l ∧ p x = true ∧ r = f x := by
  induction l with
  | nil => simp [updFirst] at h
  | cons x xs ih =>
    by_cases hx : p x = true
    · simp only [updFirst, if_pos hx, List.mem_cons] at h
      rcases h with h | h
      · exact Or.inr ⟨x, List.mem_cons_self x xs, hx, h⟩
      · exact Or.inl (List.mem_cons_of_mem _ h)
    · simp only [updFirst, if_neg hx, List.mem_cons] at h
      rcases h with h | h
      · exact Or.inl (h ▸ List.mem_cons_self x xs)
      · rcases ih h with h' | ⟨y, hy, hpy, hr⟩
        · exact Or.inl (List.mem_cons_of_mem _ h')
        · exact Or.inr ⟨y, List.mem_cons_of_mem _ hy, hpy, hr⟩


/-! ### Lemmas about `consumeList` -/

theorem consumeList_of_none {uid : Nat} {l : List AiUsageRow}
    (h : findUsage uid l = none) : consumeList uid l = l ++ [⟨uid, 1⟩] := by
  unfold consumeList
  rw [h]

theorem consumeList_of_some {uid : Nat} {l : List AiUsageRow} {r : AiUsageRow}
    (h : findUsage uid l = some r) :
    consumeList uid l =
      updFirst (fun r => r.user_id == uid) (fun r => { r with ai_used := 1 }) l := by
  unfold consumeList
  rw [h]

theorem findUsage_consumeList_self (uid : Nat) (l : List AiUsageRow) :
    findUsage uid (consumeList uid l) = some ⟨uid, 1⟩ := by
  cases h : findUsage uid l with
  | none =>
    rw [consumeList_of_none h]
    unfold findUsage at h ⊢
    rw [List.find?_append, h]
    simp
  | some r =>
    rw [consumeList_of_some h]
    unfold findUsage at h ⊢
    have hfind := find?_updFirst_self (p := fun (r : AiUsageRow) => r.user_id == uid)
      (f := fun r => { r with ai_used := 1 }) (fun x hx => hx) h
    have hp : r.user_id = uid := by
      have h2 := List.find?_some (p := fun (r : AiUsageRow) => r.user_id == uid) h
      simpa using h2
    rw [hfind]
    cases r
    simp only at hp
    simp [hp]

theorem findUsage_consumeList_other {uid uid' : Nat} (hne : uid' ≠ uid)
    (l : List AiUsageRow) :
    findUsage uid (consumeList uid' l) = findUsage uid l := by
  cases h : findUsage uid' l with
  | none =>
    rw [consumeList_of_none h]
    unfold findUsage
    rw [List.find?_append]
    have hnil : List.find? (fun r => r.user_id == uid) [(⟨uid', 1⟩ : AiUsageRow)] = none := by
      rw [List.find?_cons_of_neg _ (by simp [hne])]
      rfl
    rw [hnil, Option.or_none]
  | some r =>
    rw [consumeList_of_some h]
    unfold findUsage
    exact find?_updFirst_other (p := fun (r : AiUsageRow) => r.user_id == uid')
      (q := fun r => r.user_id == uid) (f := fun r => { r with ai_used := 1 })
      (fun x => rfl)
      (fun x hx => by
        simp only [Nat.beq_eq_true_eq] at hx
        simp only []
        rw [hx]
        exact beq_eq_false_iff_ne.mpr (fun hc => hne hc.symm)) l

theorem consumeList_idem (uid : Nat) (l : List AiUsageRow) :
    consumeList uid (consumeList uid l) = consumeList uid l := by
  have h1 := findUsage_consumeList_self uid l
  rw [consumeList_of_some h1]
  cases h : findUsage uid l with
  | none =>
    rw [consumeList_of_none h, updFirst_append_of_none h]
    simp [updFirst]
  | some r =>
    rw [consumeList_of_some h]
    exact updFirst_idem (p := fun (r : AiUsageRow) => r.user_id == uid)
      (f := fun r => { r with ai_used := 1 }) (fun x hx => hx) (fun x _ => rfl) l

/-! ### Lemmas about `subscribeList` -/

theorem subscribeList_of_none {uid : Nat} {l : List SubscriptionRow}
    (h : findSub uid l = none) : subscribeList uid l = l ++ [⟨uid, true⟩] := by
  unfold subscribeList
  rw [h]

theorem subscribeList_of_some {uid : Nat} {l : List SubscriptionRow} {r : SubscriptionRow}
    (h : findSub uid l = some r) :
    subscribeList uid l =
      updFirst (fun r => r.user_id == uid) (fun r => { r with active := true }) l := by
  unfold subscribeList
  rw [h]

theorem findSub_subscribeList_self (uid : Nat) (l : List SubscriptionRow) :
    findSub uid (subscribeList uid l) = some ⟨uid, true⟩ := by
  cases h : findSub uid l with
  | none =>
    rw [subscribeList_of_none h]
    unfold findSub at h ⊢
    rw [List.find?_append, h]
    simp
  | some r =>
    rw [subscribeList_of_some h]
    unfold findSub at h ⊢
    have hfind := find?_updFirst_self (p := fun (r : SubscriptionRow) => r.user_id == uid)
      (f := fun r => { r with active := true }) (fun x hx => hx) h
    have hp : r.user_id = uid := by
      have h2 := List.find?_some (p := fun (r : SubscriptionRow) => r.user_id == uid) h
      simpa using h2
    rw [hfind]
    cases r
    simp only at hp
    simp [hp]

theorem findSub_subscribeList_other {uid uid' : Nat} (hne : uid' ≠ uid)
    (l : List SubscriptionRow) :
    findSub uid (subscribeList uid' l) = findSub uid l := by
  cases h : findSub uid' l with
  | none =>
    rw [subscribeList_of_none h]
    unfold findSub
    rw [List.find?_append]
    have hnil : List.find? (fun r => r.user_id == uid) [(⟨uid', true⟩ : SubscriptionRow)] = none := by
      rw [List.find?_cons_of_neg _ (by simp [hne])]
      rfl
    rw [hnil, Option.or_none]
  | some r =>
    rw [subscribeList_of_some h]
    unfold findSub
    exact find?_updFirst_other (p := fun (r : SubscriptionRow) => r.user_id == uid')
      (q := fun r => r.user_id == uid) (f := fun r => { r with active := true })
      (fun x => rfl)
      (fun x hx => by
        simp only [Nat.beq_eq_true_eq] at hx
        simp only []
        rw [hx]
        exact beq_eq_false_iff_ne.mpr (fun hc => hne hc.symm)) l

theorem subscribeList_idem (uid : Nat) (l : List SubscriptionRow) :
    subscribeList uid (subscribeList uid l) = subscribeList uid l := by
  have h1 := findSub_subscribeList_self uid l
  rw [subscribeList_of_some h1]
  cases h : findSub uid l with
  | none =>
    rw [subscribeList_of_none h, updFirst_append_of_none h]
    simp [updFirst]
  | some r =>
    rw [subscribeList_of_some h]
    exact updFirst_idem (p := fun (r : SubscriptionRow) => r.user_id == uid)
      (f := fun r => { r with active := true }) (fun x hx => hx) (fun x _ => rfl) l

theorem countP_subscribeList (uid uid' : Nat) (l : List SubscriptionRow)
    (h : l.countP (fun r => r.user_id == uid) ≤ 1) :
    (subscribeList uid' l).countP (fun r => r.user_id == uid) ≤ 1 := by
  cases hf : findSub uid' l with
  | none =>
    rw [subscribeList_of_none hf, List.countP_append]
    by_cases he : uid' = uid
    · subst he
      have hz : l.countP (fun r => r.user_id == uid') = 0 := by
        rw [List.countP_eq_zero]
        intro a ha
        exact (List.find?_eq_none.mp hf) a ha
      have hone : List.countP (fun r => r.user_id == uid') [(⟨uid', true⟩ : SubscriptionRow)] ≤ 1 := by
        rw [List.countP_cons, List.countP_nil]
        simp
      omega
    · have hz : List.countP (fun r => r.user_id == uid) [(⟨uid', true⟩ : SubscriptionRow)] = 0 := by
        rw [List.countP_cons, List.countP_nil]
        simp [Nat.beq_eq_true_eq, he]
      omega
  | some r =>
    rw [subscribeList_of_some hf,
      countP_updFirst (p := fun (r : SubscriptionRow) => r.user_id == uid')
        (q := fun r => r.user_id == uid) (f := fun r => { r with active := true })
        (fun x => rfl) l]
    exact h

/-! ### Per-operation frame lemmas -/

theorem signup_fst_ai_usage (hash : String → String) (db : DB) (n e p : String) :
    (signup hash db n e p).1.ai_usage = db.ai_usage := by
  unfold signup
  dsimp only
  split
  · rfl
  · split <;> rfl

theorem signup_fst_subs (hash : String → String) (db : DB) (n e p : String) :
    (signup hash db n e p).1.subs = db.subs := by
  unfold signup
  dsimp only
  split
  · rfl
  · split <;> rfl

theorem chatbotPost_fst (groq : Option GroqClient) (db : DB) (sess : Sess) (msg : String) :
    (chatbotPost groq db sess msg).1 = db := by
  unfold chatbotPost
  cases sess.user_id with
  | none => rfl
  | some uid =>
    dsimp only
    split
    · rfl
    · split
      · rfl
      · cases groq with
        | none => rfl
        | some client => rfl

theorem applyOp_ai_usage_of_not_consume (op : Op) (db : DB) (uid : Nat)
    (h : isConsumeFor uid op = false) :
    findUsage uid (applyOp op db).ai_usage = findUsage uid db.ai_usage := by
  cases op with
  | signupOp hash n e p => simp only [applyOp, signup_fst_ai_usage]
  | loginOp check e p => rfl
  | subscribeOp u => rfl
  | chatbotOp groq sess msg => simp only [applyOp, chatbotPost_fst]
  | consumeOp u =>
    have hu : u ≠ uid := by simpa [isConsumeFor] using h
    exact findUsage_consumeList_other hu db.ai_usage
  | otherWrite f => rfl

theorem eq_consumeOp_of_isConsumeFor {uid : Nat} {op : Op}
    (h : isConsumeFor uid op = true) : op = Op.consumeOp uid := by
  cases op with
  | signupOp a b c d => exact absurd h (by simp [isConsumeFor])
  | loginOp a b c => exact absurd h (by simp [isConsumeFor])
  | subscribeOp u => exact absurd h (by simp [isConsumeFor])
  | chatbotOp a b c => exact absurd h (by simp [isConsumeFor])
  | consumeOp u =>
    simp only [isConsumeFor, Nat.beq_eq_true_eq] at h
    rw [h]
  | otherWrite f => exact absurd h (by simp [isConsumeFor])

theorem chatbotLocked_consumeDb (uid : Nat) (db : DB) :
    chatbotLocked (consumeDb uid db) uid = true := by
  unfold chatbotLocked
  show (match findUsage uid (consumeList uid db.ai_usage) with
    | none => false
    | some usage => usage.ai_used == 1) = true
  rw [findUsage_consumeList_self]
  rfl

theorem chatbotLocked_applyOp (op : Op) (db : DB) (uid : Nat)
    (h : chatbotLocked db uid = true) :
    chatbotLocked (applyOp op db) uid = true := by
  by_cases hc : isConsumeFor uid op = false
  · unfold chatbotLocked at h ⊢
    rw [applyOp_ai_usage_of_not_consume op db uid hc]
    exact h
  · have hc2 : op = Op.consumeOp uid :=
      eq_consumeOp_of_isConsumeFor (by simpa using hc)
    subst hc2
    exact chatbotLocked_consumeDb uid db

theorem runOps_nil (db : DB) : runOps [] db = db := rfl

theorem runOps_cons (o : Op) (ops : List Op) (db : DB) :
    runOps (o :: ops) db = runOps ops (applyOp o db) := rfl

theorem chatbotLocked_runOps (ops : List Op) (db : DB) (uid : Nat)
    (h : chatbotLocked db uid = true) :
    chatbotLocked (runOps ops db) uid = true := by
  induction ops generalizing db with
  | nil => exact h
  | cons o os ih => exact ih _ (chatbotLocked_applyOp o db uid h)

theorem findUsage_runOps_of_no_consume (ops : List Op) (db : DB) (uid : Nat)
    (h : ops.all (fun o => !isConsumeFor uid o) = true) :
    findUsage uid (runOps ops db).ai_usage = findUsage uid db.ai_usage := by
  induction ops generalizing db with
  | nil => rfl
  | cons o os ih =>
    rw [List.all_cons, Bool.and_eq_true] at h
    rw [runOps_cons, ih _ h.2,
      applyOp_ai_usage_of_not_consume o db uid (by simpa using h.1)]

theorem chatbotLocked_runOps_of_consume (ops : List Op) (db : DB) (uid : Nat)
    (h : ops.any (isConsumeFor uid) = true) :
    chatbotLocked (runOps ops db) uid = true := by
  induction ops generalizing db with
  | nil => simp [List.any_nil] at h
  | cons o os ih =>
    rw [List.any_cons, Bool.or_eq_true] at h
    rcases h with h | h
    · have h2 : o = Op.consumeOp uid := eq_consumeOp_of_isConsumeFor h
      subst h2
      rw [runOps_cons]
      exact chatbotLocked_runOps os _ uid (chatbotLocked_consumeDb uid db)
    · rw [runOps_cons]
      exact ih _ h

/-! ### The reachable-state invariants -/

/-- Every `AiUsage` row ever written has `ai_used = 1`. -/
def quotaRowsOne (l : List AiUsageRow) : Prop := ∀ r ∈ l, r.ai_used = 1

theorem quotaRowsOne_consumeList (uid : Nat) (l : List AiUsageRow)
    (h : quotaRowsOne l) : quotaRowsOne (consumeList uid l) := by
  cases hf : findUsage uid l with
  | none =>
    rw [consumeList_of_none hf]
    intro r hr
    rcases List.mem_append.mp hr with hr | hr
    · exact h r hr
    · simp only [List.mem_singleton] at hr
      rw [hr]
  | some r0 =>
    rw [consumeList_of_some hf]
    intro r hr
    rcases mem_updFirst hr with hr | ⟨x, _, _, hr⟩
    · exact h r hr
    · rw [hr]

theorem quotaRowsOne_applyOp (op : Op) (db : DB)
    (h : quotaRowsOne db.ai_usage) : quotaRowsOne (applyOp op db).ai_usage := by
  cases op with
  | signupOp hash n e p => rw [applyOp, signup_fst_ai_usage]; exact h
  | loginOp check e p => exact h
  | subscribeOp u => exact h
  | chatbotOp groq sess msg => rw [applyOp, chatbotPost_fst]; exact h
  | consumeOp u => exact quotaRowsOne_consumeList u _ h
  | otherWrite f => exact h

theorem quotaRowsOne_runOps (ops : List Op) (db : DB)
    (h : quotaRowsOne db.ai_usage) : quotaRowsOne (runOps ops db).ai_usage := by
  induction ops generalizing db with
  | nil => exact h
  | cons o os ih => exact ih _ (quotaRowsOne_applyOp o db h)

theorem quotaRowsOne_reachable (m : List Mentor) (ot : OtherTables) (ops : List Op) :
    quotaRowsOne (runOps ops (initDB m ot)).ai_usage :=
  quotaRowsOne_runOps ops _ (by intro r hr; simp [initDB] at hr)

theorem applyOp_findSub_of_not_subscribe (op : Op) (db : DB) (uid : Nat)
    (h : ∀ u, op ≠ Op.subscribeOp u) :
    findSub uid (applyOp op db).subs = findSub uid db.subs := by
  cases op with
  | signupOp hash n e p => simp only [applyOp, signup_fst_subs]
  | loginOp check e p => rfl
  | subscribeOp u => exact absurd rfl (h u)
  | chatbotOp groq sess msg => simp only [applyOp, chatbotPost_fst]
  | consumeOp u => rfl
  | otherWrite f => rfl

theorem user_is_subscribed_applyOp (op : Op) (db : DB) (uid : Nat)
    (h : user_is_subscribed db (some uid) = true) :
    user_is_subscribed (applyOp op db) (some uid) = true := by
  cases op with
  | subscribeOp u =>
    by_cases he : u = uid
    · subst he
      unfold user_is_subscribed
      have hs := findSub_subscribeList_self u db.subs
      show (match findSub u (subscribeList u db.subs) with
        | none => false
        | some sub => sub.active) = true
      rw [hs]
    · unfold user_is_subscribed at h ⊢
      show (match findSub uid (subscribeList u db.subs) with
        | none => false
        | some sub => sub.active) = true
      rw [findSub_subscribeList_other he]
      exact h
  | signupOp hash n e p =>
    unfold user_is_subscribed at h ⊢
    show (match findSub uid (signup hash db n e p).1.subs with
      | none => false
      | some sub => sub.active) = true
    rw [signup_fst_subs]
    exact h
  | loginOp check e p => exact h
  | chatbotOp groq sess msg =>
    unfold user_is_subscribed at h ⊢
    show (match findSub uid (chatbotPost groq db sess msg).1.subs with
      | none => false
      | some sub => sub.active) = true
    rw [chatbotPost_fst]
    exact h
  | consumeOp u => exact h
  | otherWrite f => exact h

theorem user_is_subscribed_runOps (ops : List Op) (db : DB) (uid : Nat)
    (h : user_is_subscribed db (some uid) = true) :
    user_is_subscribed (runOps ops db) (some uid) = true := by
  induction ops generalizing db with
  | nil => exact h
  | cons o os ih => exact ih _ (user_is_subscribed_applyOp o db uid h)

theorem subCount_applyOp (op : Op) (db : DB) (uid : Nat)
    (h : db.subs.countP (fun r => r.user_id == uid) ≤ 1) :
    (applyOp op db).subs.countP (fun r => r.user_id == uid) ≤ 1 := by
  cases op with
  | signupOp hash n e p => rw [applyOp, signup_fst_subs]; exact h
  | loginOp check e p => exact h
  | subscribeOp u => exact countP_subscribeList uid u db.subs h
  | chatbotOp groq sess msg => rw [applyOp, chatbotPost_fst]; exact h
  | consumeOp u => exact h
  | otherWrite f => exact h

theorem subCount_runOps (ops : List Op) (db : DB) (uid : Nat)
    (h : db.subs.countP (fun r => r.user_id == uid) ≤ 1) :
    (runOps ops db).subs.countP (fun r => r.user_id == uid) ≤ 1 := by
  induction ops generalizing db with
  | nil => exact h
  | cons o os ih => exact ih _ (subCount_applyOp o db uid h)

theorem subCount_reachable (m : List Mentor) (ot : OtherTables) (ops : List Op) (uid : Nat) :
    (runOps ops (initDB m ot)).subs.countP (fun r => r.user_id == uid) ≤ 1 :=
  subCount_runOps ops _ uid (by simp [initDB])

/-- The lock test holds exactly when a row with `ai_used = 1` is found. -/
theorem chatbotLocked_iff (db : DB) (uid : Nat) :
    chatbotLocked db uid = true ↔
      ∃ r, findUsage uid db.ai_usage = some r ∧ r.ai_used = 1 := by
  unfold chatbotLocked
  cases h : findUsage uid db.ai_usage with
  | none => simp
  | some r => simp

/-! ## The claims -/

/-- C1: for every user, `hasFreeQuotaRemaining` (the chatbot's lock
check) is true in every state reached without a `consumeFreeQuota`
(`/finish` or `/chatbot/end`) for that user and false in every state
reached after one; `consumeFreeQuota` is idempotent and a second call
leaves the stored `AiUsage` counter at `ai_used = 1`; and no operation
of the system resets a consumed counter back to 0. -/
theorem c1_free_quota_lifecycle (m : List Mentor) (ot : OtherTables) (uid : Nat) :
    (∀ ops : List Op, ops.all (fun o => !isConsumeFor uid o) = true →
      hasFreeQuotaRemaining (runOps ops (initDB m ot)) uid = true) ∧
    (∀ ops : List Op, ops.any (isConsumeFor uid) = true →
      hasFreeQuotaRemaining (runOps ops (initDB m ot)) uid = false) ∧
    (∀ db : DB, consumeDb uid (consumeDb uid db) = consumeDb uid db) ∧
    (∀ db : DB,
      findUsage uid (consumeDb uid (consumeDb uid db)).ai_usage = some ⟨uid, 1⟩) ∧
    (∀ (op : Op) (db : DB) (r : AiUsageRow),
      findUsage uid db.ai_usage = some r → r.ai_used = 1 →
      ∃ r2, findUsage uid (applyOp op db).ai_usage = some r2 ∧ r2.ai_used = 1) := by
  refine ⟨?_, ?_, ?_, ?_, ?_⟩
  · intro ops h
    have hfind := findUsage_runOps_of_no_consume ops (initDB m ot) uid h
    unfold hasFreeQuotaRemaining chatbotLocked
    rw [hfind]
    rfl
  · intro ops h
    have := chatbotLocked_runOps_of_consume ops (initDB m ot) uid h
    unfold hasFreeQuotaRemaining
    rw [this]
    rfl
  · intro db
    show ({ db with ai_usage := consumeList uid (consumeList uid db.ai_usage) } : DB) =
      { db with ai_usage := consumeList uid db.ai_usage }
    rw [consumeList_idem]
  · intro db
    exact findUsage_consumeList_self uid (consumeList uid db.ai_usage)
  · intro op db r hfind hone
    have hl : chatbotLocked db uid = true :=
      (chatbotLocked_iff db uid).mpr ⟨r, hfind, hone⟩
    exact (chatbotLocked_iff (applyOp op db) uid).mp (chatbotLocked_applyOp op db uid hl)

theorem c1_free_quota_lifecycle_witness :
    hasFreeQuotaRemaining
      (runOps [Op.subscribeOp 1, Op.consumeOp 2] (initDB [] ⟨[], [], []⟩)) 1 = true ∧
    hasFreeQuotaRemaining
      (runOps [Op.consumeOp 1, Op.subscribeOp 1] (initDB [] ⟨[], [], []⟩)) 1 = false :=
  ⟨(c1_free_quota_lifecycle [] ⟨[], [], []⟩ 1).1 [Op.subscribeOp 1, Op.consumeOp 2] (by rfl),
   (c1_free_quota_lifecycle [] ⟨[], [], []⟩ 1).2.1 [Op.consumeOp 1, Op.subscribeOp 1] (by rfl)⟩

/-- C2: once `hasFreeQuotaRemaining` is false for a user, `POST
/chatbot` (the spec's `submitTurn`) never calls the external completion
API; it appends exactly the one fixed lock-notice assistant message to
the session history, leaves the database unchanged, and the account
remains locked. -/
theorem c2_locked_submitTurn (groq : Option GroqClient) (db : DB) (sess : Sess)
    (msg : String) (uid : Nat)
    (hu : sess.user_id = some uid)
    (hq : hasFreeQuotaRemaining db uid = false) :
    (chatbotPost groq db sess msg).2.2.1 = false ∧
    (chatbotPost groq db sess msg).2.1.ai_history = sess.ai_history ++ [lockNotice] ∧
    (chatbotPost groq db sess msg).1 = db ∧
    hasFreeQuotaRemaining (chatbotPost groq db sess msg).1 uid = false ∧
    (chatbotPost groq db sess msg).2.2.2 =
      ChatView.page (sess.ai_history ++ [lockNotice]) true := by
  have hl : chatbotLocked db uid = true := by
    unfold hasFreeQuotaRemaining at hq
    simpa using hq
  unfold chatbotPost
  rw [hu]
  simp only [hl, if_true]
  exact ⟨trivial, trivial, trivial, hq, trivial⟩

theorem c2_locked_submitTurn_witness :
    (chatbotPost (some (fun _ => Except.ok "reply")) ⟨[], [], [⟨1, 1⟩], [], ⟨[], [], []⟩⟩
      ⟨some 1, some "A", [], [], false, none⟩ "hello").2.2.1 = false ∧
    (chatbotPost (some (fun _ => Except.ok "reply")) ⟨[], [], [⟨1, 1⟩], [], ⟨[], [], []⟩⟩
      ⟨some 1, some "A", [], [], false, none⟩ "hello").2.1.ai_history = [] ++ [lockNotice] :=
  ⟨(c2_locked_submitTurn (some (fun _ => Except.ok "reply")) ⟨[], [], [⟨1, 1⟩], [], ⟨[], [], []⟩⟩
      ⟨some 1, some "A", [], [], false, none⟩ "hello" 1 rfl (by rfl)).1,
   (c2_locked_submitTurn (some (fun _ => Except.ok "reply")) ⟨[], [], [⟨1, 1⟩], [], ⟨[], [], []⟩⟩
      ⟨some 1, some "A", [], [], false, none⟩ "hello" 1 rfl (by rfl)).2.1⟩

/-- C7: `GET /chatbot?reset=1` for a logged-in user clears the
session's displayed conversation history to empty, leaves the database
(and hence the user's `AiUsage` quota state) untouched, so
`hasFreeQuotaRemaining` is the same before and after the reset. -/
theorem c7_chat_reset_frame (db : DB) (sess : Sess) (uid : Nat)
    (hu : sess.user_id = some uid) :
    chatbotGet db sess true =
      (db, { sess with ai_history := [] }, ChatView.redirectChatbot) ∧
    (chatbotGet db sess true).2.1.ai_history = [] ∧
    (chatbotGet db sess true).1 = db ∧
    hasFreeQuotaRemaining (chatbotGet db sess true).1 uid =
      hasFreeQuotaRemaining db uid := by
  unfold chatbotGet
  rw [hu]
  exact ⟨rfl, rfl, rfl, rfl⟩

theorem c7_chat_reset_frame_witness :
    chatbotGet ⟨[], [], [⟨1, 1⟩], [], ⟨[], [], []⟩⟩
        ⟨some 1, some "A", [⟨"user", "hi"⟩], [], false, none⟩ true =
      (⟨[], [], [⟨1, 1⟩], [], ⟨[], [], []⟩⟩,
       { (⟨some 1, some "A", [⟨"user", "hi"⟩], [], false, none⟩ : Sess) with ai_history := [] },
       ChatView.redirectChatbot) :=
  (c7_chat_reset_frame ⟨[], [], [⟨1, 1⟩], [], ⟨[], [], []⟩⟩
    ⟨some 1, some "A", [⟨"user", "hi"⟩], [], false, none⟩ 1 rfl).1

/-- C8: `GET /finish` (absent from the spec's HTTP surface) for a
logged-in user consumes the free AI quota — the `AiUsage` row exists
afterwards with `ai_used = 1` and `hasFreeQuotaRemaining` is false —
while the session, in particular its conversation history, is
unchanged: quota consumption is reachable outside `endAndLock` and
without clearing history. -/
theorem c8_finish_consumes_quota (db : DB) (sess : Sess) (uid : Nat)
    (hu : sess.user_id = some uid) :
    (∃ r, findUsage uid (finish db sess).1.ai_usage = some r ∧ r.ai_used = 1) ∧
    hasFreeQuotaRemaining (finish db sess).1 uid = false ∧
    (finish db sess).2.1 = sess ∧
    (finish db sess).2.1.ai_history = sess.ai_history ∧
    (finish db sess).2.2 = QuotaView.redirectChatbot := by
  unfold finish
  rw [hu]
  refine ⟨⟨⟨uid, 1⟩, findUsage_consumeList_self uid db.ai_usage, rfl⟩, ?_, rfl, rfl, rfl⟩
  unfold hasFreeQuotaRemaining
  rw [chatbotLocked_consumeDb]
  rfl

theorem c8_finish_consumes_quota_witness :
    hasFreeQuotaRemaining
      (finish (initDB [] ⟨[], [], []⟩)
        ⟨some 1, some "A", [⟨"user", "hi"⟩], [], false, none⟩).1 1 = false ∧
    (finish (initDB [] ⟨[], [], []⟩)
      ⟨some 1, some "A", [⟨"user", "hi"⟩], [], false, none⟩).2.1.ai_history =
      [⟨"user", "hi"⟩] :=
  ⟨(c8_finish_consumes_quota (initDB [] ⟨[], [], []⟩)
      ⟨some 1, some "A", [⟨"user", "hi"⟩], [], false, none⟩ 1 rfl).2.1,
   (c8_finish_consumes_quota (initDB [] ⟨[], [], []⟩)
      ⟨some 1, some "A", [⟨"user", "hi"⟩], [], false, none⟩ 1 rfl).2.2.2.1⟩

/-- C10: in every reachable state every `AiUsage` row has `ai_used`
equal to 0 or 1 (in fact every write sets it to exactly 1), so the
chatbot's lock test (`ai_used == 1`) and the home page's test
(`ai_used >= 1`) agree on all reachable states. -/
theorem c10_ai_used_invariant (m : List Mentor) (ot : OtherTables) (ops : List Op) :
    (∀ r ∈ (runOps ops (initDB m ot)).ai_usage, r.ai_used = 0 ∨ r.ai_used = 1) ∧
    (∀ uid, chatbotLocked (runOps ops (initDB m ot)) uid =
      homeAiUsed (runOps ops (initDB m ot)) uid) := by
  constructor
  · intro r hr
    exact Or.inr (quotaRowsOne_reachable m ot ops r hr)
  · intro uid
    unfold chatbotLocked homeAiUsed
    cases hf : findUsage uid (runOps ops (initDB m ot)).ai_usage with
    | none => rfl
    | some r =>
      have hr : r ∈ (runOps ops (initDB m ot)).ai_usage := by
        unfold findUsage at hf
        exact List.mem_of_find?_eq_some hf
      have h1 : r.ai_used = 1 := quotaRowsOne_reachable m ot ops r hr
      show (r.ai_used == 1) = decide (1 ≤ r.ai_used)
      rw [h1]
      rfl

theorem c10_ai_used_invariant_witness :
    chatbotLocked (runOps [Op.consumeOp 1] (initDB [] ⟨[], [], []⟩)) 1 =
      homeAiUsed (runOps [Op.consumeOp 1] (initDB [] ⟨[], [], []⟩)) 1 :=
  (c10_ai_used_invariant [] ⟨[], [], []⟩ [Op.consumeOp 1]).2 1

/-- C3: `POST /subscribe` (the spec's `activateSubscription`) is
idempotent and monotone: after a call `isSubscribed` is true (so two
calls in a row leave it true after each), a second call changes
nothing, every reachable state has at most one `Subscription` row per
`user_id`, and no operation of the system turns an active subscription
back to inactive. -/
theorem c3_subscribe_idempotent_monotone (m : List Mentor) (ot : OtherTables) (uid : Nat) :
    (∀ db : DB, user_is_subscribed (subscribeDb uid db) (some uid) = true) ∧
    (∀ db : DB, subscribeDb uid (subscribeDb uid db) = subscribeDb uid db) ∧
    (∀ ops : List Op,
      (runOps ops (initDB m ot)).subs.countP (fun r => r.user_id == uid) ≤ 1) ∧
    (∀ (op : Op) (db : DB), user_is_subscribed db (some uid) = true →
      user_is_subscribed (applyOp op db) (some uid) = true) := by
  refine ⟨?_, ?_, ?_, ?_⟩
  · intro db
    unfold user_is_subscribed
    show (match findSub uid (subscribeList uid db.subs) with
      | none => false
      | some sub => sub.active) = true
    rw [findSub_subscribeList_self]
  · intro db
    show ({ db with subs := subscribeList uid (subscribeList uid db.subs) } : DB) =
      { db with subs := subscribeList uid db.subs }
    rw [subscribeList_idem]
  · intro ops
    exact subCount_reachable m ot ops uid
  · intro op db h
    exact user_is_subscribed_applyOp op db uid h

theorem c3_subscribe_idempotent_monotone_witness :
    user_is_subscribed (subscribeDb 1 (initDB [] ⟨[], [], []⟩)) (some 1) = true ∧
    user_is_subscribed
      (applyOp (Op.consumeOp 1) (subscribeDb 1 (initDB [] ⟨[], [], []⟩))) (some 1) = true :=
  ⟨(c3_subscribe_idempotent_monotone [] ⟨[], [], []⟩ 1).1 (initDB [] ⟨[], [], []⟩),
   (c3_subscribe_idempotent_monotone [] ⟨[], [], []⟩ 1).2.2.2 (Op.consumeOp 1)
     (subscribeDb 1 (initDB [] ⟨[], [], []⟩)) (by rfl)⟩

/-- C4: `POST /login` normalizes the submitted email (trim then
lowercase), looks the user up by it, renders the same generic
"Invalid email or password." message whether the email is unknown or
the hash verification fails, and succeeds exactly when verification of
the stored hashed password succeeds, establishing a session that
identifies the user and has an empty conversation history. -/
theorem c4_login_contract (check : String → String → Option Bool) (db : DB)
    (sess : Sess) (email password : String) :
    (db.users.find? (fun u => u.email == normEmail email) = none →
      login check db sess email password =
        (sess, LoginView.loginError invalidCredentialsMsg)) ∧
    (∀ u, db.users.find? (fun u => u.email == normEmail email) = some u →
      check u.password password.trim = some false →
      login check db sess email password =
        (sess, LoginView.loginError invalidCredentialsMsg)) ∧
    (∀ u, db.users.find? (fun u => u.email == normEmail email) = some u →
      check u.password password.trim = some true →
      (login check db sess email password).2 = LoginView.redirectDashboard ∧
      (login check db sess email password).1.user_id = some u.id ∧
      (login check db sess email password).1.user = some u.name ∧
      (login check db sess email password).1.ai_history = []) := by
  refine ⟨?_, ?_, ?_⟩
  · intro h
    simp only [login, h]
  · intro u hu hc
    simp [login, hu, hc]
  · intro u hu hc
    simp [login, hu, hc]

theorem c4_login_contract_witness :
    (login (fun _ _ => some true)
        ⟨[⟨1, "Asha", normEmail "  ASHA@X.com ", "hash1"⟩], [], [], [], ⟨[], [], []⟩⟩
        ⟨none, none, [⟨"user", "old"⟩], [], false, none⟩ "  ASHA@X.com " "pw1").2 =
      LoginView.redirectDashboard ∧
    (login (fun _ _ => some true)
        ⟨[⟨1, "Asha", normEmail "  ASHA@X.com ", "hash1"⟩], [], [], [], ⟨[], [], []⟩⟩
        ⟨none, none, [⟨"user", "old"⟩], [], false, none⟩ "  ASHA@X.com " "pw1").1.user_id =
      some 1 ∧
    (login (fun _ _ => some true)
        ⟨[⟨1, "Asha", normEmail "  ASHA@X.com ", "hash1"⟩], [], [], [], ⟨[], [], []⟩⟩
        ⟨none, none, [⟨"user", "old"⟩], [], false, none⟩ "  ASHA@X.com " "pw1").1.ai_history =
      [] ∧
    login (fun _ _ => some false)
        ⟨[⟨1, "Asha", normEmail "  ASHA@X.com ", "hash1"⟩], [], [], [], ⟨[], [], []⟩⟩
        ⟨none, none, [], [], false, none⟩ "  ASHA@X.com " "pw1" =
      (⟨none, none, [], [], false, none⟩, LoginView.loginError invalidCredentialsMsg) ∧
    login (fun _ _ => some true) ⟨[], [], [], [], ⟨[], [], []⟩⟩
        ⟨none, none, [], [], false, none⟩ "nobody@x.com" "pw" =
      (⟨none, none, [], [], false, none⟩, LoginView.loginError invalidCredentialsMsg) := by
  refine ⟨?_, ?_, ?_, ?_, ?_⟩
  · exact ((c4_login_contract (fun _ _ => some true)
      ⟨[⟨1, "Asha", normEmail "  ASHA@X.com ", "hash1"⟩], [], [], [], ⟨[], [], []⟩⟩
      ⟨none, none, [⟨"user", "old"⟩], [], false, none⟩ "  ASHA@X.com " "pw1").2.2
      ⟨1, "Asha", normEmail "  ASHA@X.com ", "hash1"⟩
      (List.find?_cons_of_pos _ (by simp)) rfl).1
  · exact ((c4_login_contract (fun _ _ => some true)
      ⟨[⟨1, "Asha", normEmail "  ASHA@X.com ", "hash1"⟩], [], [], [], ⟨[], [], []⟩⟩
      ⟨none, none, [⟨"user", "old"⟩], [], false, none⟩ "  ASHA@X.com " "pw1").2.2
      ⟨1, "Asha", normEmail "  ASHA@X.com ", "hash1"⟩
      (List.find?_cons_of_pos _ (by simp)) rfl).2.1
  · exact ((c4_login_contract (fun _ _ => some true)
      ⟨[⟨1, "Asha", normEmail "  ASHA@X.com ", "hash1"⟩], [], [], [], ⟨[], [], []⟩⟩
      ⟨none, none, [⟨"user", "old"⟩], [], false, none⟩ "  ASHA@X.com " "pw1").2.2
      ⟨1, "Asha", normEmail "  ASHA@X.com ", "hash1"⟩
      (List.find?_cons_of_pos _ (by simp)) rfl).2.2.2
  · exact (c4_login_contract (fun _ _ => some false)
      ⟨[⟨1, "Asha", normEmail "  ASHA@X.com ", "hash1"⟩], [], [], [], ⟨[], [], []⟩⟩
      ⟨none, none, [], [], false, none⟩ "  ASHA@X.com " "pw1").2.1
      ⟨1, "Asha", normEmail "  ASHA@X.com ", "hash1"⟩
      (List.find?_cons_of_pos _ (by simp)) rfl
  · exact (c4_login_contract (fun _ _ => some true) ⟨[], [], [], [], ⟨[], [], []⟩⟩
      ⟨none, none, [], [], false, none⟩ "nobody@x.com" "pw").1 rfl

/-- C9: `POST /mock-interviews/ai` for a subscribed user appends a
turn and calls the external completion API, and it neither reads nor
writes the `AiUsage` table: the database is returned unchanged and the
session/response outcome is the same for every value of the `ai_usage`
table, so the one-free-chat quota neither gates nor is consumed by
mock-interview AI turns. -/
theorem c9_mock_ai_unmetered (groq : GroqClient) (db : DB) (sess : Sess) (msg : String)
    (hsub : user_is_subscribed db sess.user_id = true)
    (hmsg : ¬ msg.trim = "") :
    (mock_interview_ai (some groq) db sess msg).2.2.1 = true ∧
    (mock_interview_ai (some groq) db sess msg).1 = db ∧
    (mock_interview_ai (some groq) db sess msg).1.ai_usage = db.ai_usage ∧
    (∀ l : List AiUsageRow,
      (mock_interview_ai (some groq) { db with ai_usage := l } sess msg).2 =
        (mock_interview_ai (some groq) db sess msg).2 ∧
      (mock_interview_ai (some groq) { db with ai_usage := l } sess msg).1 =
        { db with ai_usage := l }) ∧
    (∃ reply, (mock_interview_ai (some groq) db sess msg).2.1.mock_ai_history =
      sess.mock_ai_history ++ [⟨"user", msg.trim⟩, ⟨"assistant", reply⟩]) := by
  have hsub2 : ∀ l : List AiUsageRow,
      user_is_subscribed { db with ai_usage := l } sess.user_id = true := fun l => hsub
  unfold mock_interview_ai
  simp only [hsub, hsub2, if_true, if_neg hmsg]
  refine ⟨trivial, trivial, trivial, fun l => ⟨trivial, trivial⟩, ?_⟩
  cases hg : groq (⟨"system", mockSystemPrompt⟩ :: (sess.mock_ai_history ++ [⟨"user", msg.trim⟩])) with
  | ok r =>
    refine ⟨r, ?_⟩
    simp only [hg]
    rw [List.append_assoc]
    rfl
  | error e =>
    refine ⟨"AI error: " ++ e, ?_⟩
    simp only [hg]
    rw [List.append_assoc]
    rfl

theorem c9_mock_ai_unmetered_witness :
    (mock_interview_ai (some (fun _ => Except.ok "good answer"))
      ⟨[], [⟨1, true⟩], [⟨1, 1⟩], [], ⟨[], [], []⟩⟩
      ⟨some 1, some "A", [], [], false, none⟩ "start").2.2.1 = true ∧
    (mock_interview_ai (some (fun _ => Except.ok "good answer"))
      ⟨[], [⟨1, true⟩], [⟨1, 1⟩], [], ⟨[], [], []⟩⟩
      ⟨some 1, some "A", [], [], false, none⟩ "start").1.ai_usage = [⟨1, 1⟩] :=
  ⟨(c9_mock_ai_unmetered (fun _ => Except.ok "good answer")
      ⟨[], [⟨1, true⟩], [⟨1, 1⟩], [], ⟨[], [], []⟩⟩
      ⟨some 1, some "A", [], [], false, none⟩ "start" (by rfl) (by
        simp +decide [String.trim, Substring.trim, Substring.trimLeft, Substring.trimRight,
          Substring.takeWhileAux, Substring.takeRightWhileAux, Substring.toString,
          String.toSubstring])).1,
   (c9_mock_ai_unmetered (fun _ => Except.ok "good answer")
      ⟨[], [⟨1, true⟩], [⟨1, 1⟩], [], ⟨[], [], []⟩⟩
      ⟨some 1, some "A", [], [], false, none⟩ "start" (by rfl) (by
        simp +decide [String.trim, Substring.trim, Substring.trimLeft, Substring.trimRight,
          Substring.takeWhileAux, Substring.takeRightWhileAux, Substring.toString,
          String.toSubstring])).2.2.1⟩

/-- C5: `POST /signup` fails with the inline validation error when any
of name, email, password is empty after trimming; fails with the
duplicate-email error when a stored user's email equals the new email
after normalization (trim + lowercase) — in particular a signup whose
email differs from a previously signed-up account's only in letter
case fails; otherwise it persists a new `User` with the hashed
password and redirects to login. -/
theorem c5_signup_contract (hash : String → String) (db : DB) (name email password : String) :
    ((name.trim = "" ∨ normEmail email = "" ∨ password.trim = "") →
      signup hash db name email password = (db, SignupView.validationError)) ∧
    (¬ (name.trim = "" ∨ normEmail email = "" ∨ password.trim = "") →
      ∀ u, db.users.find? (fun u => u.email == normEmail email) = some u →
        signup hash db name email password = (db, SignupView.duplicateError)) ∧
    (¬ (name.trim = "" ∨ normEmail email = "" ∨ password.trim = "") →
      db.users.find? (fun u => u.email == normEmail email) = none →
      signup hash db name email password =
        ({ db with users := db.users ++
            [⟨db.users.length + 1, name.trim, normEmail email, hash password.trim⟩] },
         SignupView.redirectLogin)) ∧
    (∀ (n1 e1 p1 : String) (db1 : DB) (n2 e2 p2 : String),
      signup hash db n1 e1 p1 = (db1, SignupView.redirectLogin) →
      normEmail e2 = normEmail e1 →
      ¬ n2.trim = "" → ¬ p2.trim = "" →
      (signup hash db1 n2 e2 p2).2 = SignupView.duplicateError) := by
  refine ⟨?_, ?_, ?_, ?_⟩
  · intro h
    simp only [signup]
    rw [if_pos h]
  · intro h u hu
    simp only [signup]
    rw [if_neg h, hu]
  · intro h hf
    simp only [signup]
    rw [if_neg h, hf]
  · intro n1 e1 p1 db1 n2 e2 p2 hs he hn2 hp2
    by_cases hv : n1.trim = "" ∨ normEmail e1 = "" ∨ p1.trim = ""
    · exfalso
      simp only [signup] at hs
      rw [if_pos hv] at hs
      simp at hs
    · have he1 : ¬ normEmail e1 = "" := fun hc => hv (Or.inr (Or.inl hc))
      simp only [signup] at hs
      rw [if_neg hv] at hs
      cases hf : db.users.find? (fun u => u.email == normEmail e1) with
      | some u =>
        rw [hf] at hs
        simp at hs
      | none =>
        rw [hf] at hs
        have hdb1 : db1 = { db with users := db.users ++
            [⟨db.users.length + 1, n1.trim, normEmail e1, hash p1.trim⟩] } :=
          (congrArg Prod.fst hs).symm
        have hv2 : ¬ (n2.trim = "" ∨ normEmail e2 = "" ∨ p2.trim = "") := by
          intro hc
          rcases hc with hc | hc | hc
          · exact hn2 hc
          · exact he1 (he ▸ hc)
          · exact hp2 hc
        simp only [signup]
        rw [if_neg hv2]
        have hfind : db1.users.find? (fun u => u.email == normEmail e2) =
            some ⟨db.users.length + 1, n1.trim, normEmail e1, hash p1.trim⟩ := by
          rw [hdb1]
          show (db.users ++
            [(⟨db.users.length + 1, n1.trim, normEmail e1, hash p1.trim⟩ : User)]).find?
              (fun u => u.email == normEmail e2) = _
          rw [List.find?_append]
          simp only [he]
          rw [hf]
          simp
        rw [hfind]

theorem c5_signup_contract_witness :
    (signup (fun s => String.append "H" s)
      (signup (fun s => String.append "H" s) (initDB [] ⟨[], [], []⟩)
        "Asha" "asha@x.com" "pw1").1
      "Asha2" "ASHA@x.com" "pw2").2 = SignupView.duplicateError := by
  have hv : ¬ ("Asha".trim = "" ∨ normEmail "asha@x.com" = "" ∨ "pw1".trim = "") := by
    simp +decide [normEmail, String.trim, Substring.trim, Substring.trimLeft,
      Substring.trimRight, Substring.takeWhileAux, Substring.takeRightWhileAux,
      Substring.toString, String.toSubstring, String.toLower, String.map, String.mapAux]
  have hs := (c5_signup_contract (fun s => String.append "H" s) (initDB [] ⟨[], [], []⟩)
    "Asha" "asha@x.com" "pw1").2.2.1 hv rfl
  refine (c5_signup_contract (fun s => String.append "H" s) (initDB [] ⟨[], [], []⟩)
    "Asha" "asha@x.com" "pw1").2.2.2 "Asha" "asha@x.com" "pw1"
    (signup (fun s => String.append "H" s) (initDB [] ⟨[], [], []⟩) "Asha" "asha@x.com" "pw1").1
    "Asha2" "ASHA@x.com" "pw2" ?_ ?_ ?_ ?_
  · rw [hs]
  · simp +decide [normEmail, String.trim, Substring.trim, Substring.trimLeft,
      Substring.trimRight, Substring.takeWhileAux, Substring.takeRightWhileAux,
      Substring.toString, String.toSubstring, String.toLower, String.map, String.mapAux]
  · simp +decide [String.trim, Substring.trim, Substring.trimLeft,
      Substring.trimRight, Substring.takeWhileAux, Substring.takeRightWhileAux,
      Substring.toString, String.toSubstring]
  · simp +decide [String.trim, Substring.trim, Substring.trimLeft,
      Substring.trimRight, Substring.takeWhileAux, Substring.takeRightWhileAux,
      Substring.toString, String.toSubstring]

/-- C6: every request by an anonymous or unsubscribed visitor to a
subscription-gated content route (`/mentorship`, `/mock-interviews`,
`/global-match`) renders the fixed locked/upsell view, which carries no
content data and does not depend on the underlying content tables;
`user_is_subscribed` (the spec's `isSubscribed`) is false for a missing
user id (it is a total function, so it never raises) and, under the
schema's one-row-per-user constraint, true exactly when a
`Subscription` row with `active = true` exists. -/
theorem c6_gated_routes (db : DB) (sess : Sess) (uid : Nat) :
    user_is_subscribed db none = false ∧
    (db.subs.countP (fun r => r.user_id == uid) ≤ 1 →
      (user_is_subscribed db (some uid) = true ↔
        ∃ r, r ∈ db.subs ∧ r.user_id = uid ∧ r.active = true)) ∧
    (user_is_subscribed db sess.user_id = false →
      mentorship db sess = MentorshipView.locked ∧
      mock_interviews db sess = MockView.locked ∧
      global_match db sess = GlobalMatchView.locked ∧
      (∀ ms : List Mentor, mentorship { db with mentors := ms } sess = MentorshipView.locked) ∧
      (∀ ot : OtherTables, mock_interviews { db with other := ot } sess = MockView.locked)) := by
  refine ⟨rfl, ?_, ?_⟩
  · intro hcount
    have hiff : user_is_subscribed db (some uid) =
        (match findSub uid db.subs with
          | none => false
          | some sub => sub.active) := rfl
    rw [hiff]
    constructor
    · intro h
      cases hf : findSub uid db.subs with
      | none => rw [hf] at h; exact absurd h (by simp)
      | some r =>
        rw [hf] at h
        unfold findSub at hf
        refine ⟨r, List.mem_of_find?_eq_some hf, ?_, h⟩
        have h2 : r.user_id = uid := by
          have h3 := List.find?_some (p := fun (r : SubscriptionRow) => r.user_id == uid) hf
          simpa using h3
        exact h2
    · rintro ⟨r, hmem, huid, hact⟩
      cases hf : findSub uid db.subs with
      | none =>
        exfalso
        unfold findSub at hf
        have := List.find?_eq_none.mp hf r hmem
        simp [huid] at this
      | some r0 =>
        show r0.active = true
        unfold findSub at hf
        have hmem0 : r0 ∈ db.subs := List.mem_of_find?_eq_some hf
        have hp0 : (fun (x : SubscriptionRow) => x.user_id == uid) r0 = true :=
          List.find?_some (p := fun (r : SubscriptionRow) => r.user_id == uid) hf
        have hpr : (fun (x : SubscriptionRow) => x.user_id == uid) r = true := by
          simp [huid]
        have hcount2 : (db.subs.filter (fun r => r.user_id == uid)).length ≤ 1 := by
          rw [← List.countP_eq_length_filter]
          exact hcount
        have hrf : r ∈ db.subs.filter (fun r => r.user_id == uid) :=
          List.mem_filter.mpr ⟨hmem, hpr⟩
        have hr0f : r0 ∈ db.subs.filter (fun r => r.user_id == uid) :=
          List.mem_filter.mpr ⟨hmem0, hp0⟩
        have hr0r : r0 = r := by
          cases hfl : db.subs.filter (fun r => r.user_id == uid) with
          | nil =>
            rw [hfl] at hrf
            exact absurd hrf (List.not_mem_nil r)
          | cons a t =>
            rw [hfl] at hrf hr0f hcount2
            have ht : t = [] := by
              simp only [List.length_cons] at hcount2
              exact List.length_eq_zero.mp (by omega)
            subst ht
            simp only [List.mem_singleton] at hrf hr0f
            rw [hrf, hr0f]
        rw [hr0r]
        exact hact
  · intro h
    refine ⟨?_, ?_, ?_, ?_, ?_⟩
    · simp [mentorship, h]
    · simp [mock_interviews, h]
    · simp [global_match, h]
    · intro ms
      have h2 : user_is_subscribed { db with mentors := ms } sess.user_id = false := h
      simp [mentorship, h2]
    · intro ot
      have h2 : user_is_subscribed { db with other := ot } sess.user_id = false := h
      simp [mock_interviews, h2]

theorem c6_gated_routes_witness :
    mentorship ⟨[], [⟨2, true⟩], [], [⟨"M", "exp", "spec"⟩], ⟨[], [], []⟩⟩
        ⟨none, none, [], [], false, none⟩ = MentorshipView.locked ∧
    user_is_subscribed ⟨[], [⟨2, true⟩], [], [], ⟨[], [], []⟩⟩ (some 2) = true :=
  ⟨((c6_gated_routes ⟨[], [⟨2, true⟩], [], [⟨"M", "exp", "spec"⟩], ⟨[], [], []⟩⟩
      ⟨none, none, [], [], false, none⟩ 2).2.2 rfl).1,
   ((c6_gated_routes ⟨[], [⟨2, true⟩], [], [], ⟨[], [], []⟩⟩
      ⟨none, none, [], [], false, none⟩ 2).2.1 (by decide)).mpr
     ⟨⟨2, true⟩, by simp, rfl, rfl⟩⟩

end App
